import Mathlib

/-!
Shallow embedding of the `estate` module (file
`src/custom/estate/models/models.py`) of the `real-estate` repository:
property records, offers, their derived fields, validation, and the four
action methods. Monetary amounts (Odoo `Float` fields) are modelled as
rationals; `Date` values involved in day arithmetic are modelled as
proleptic-Gregorian ordinal day numbers (as Python's `date.toordinal`),
and the one date computed by month arithmetic uses an explicit
year/month/day record. Record identities (`res.partner`, `res.users`,
database ids) are modelled as natural numbers. Python exceptions
(`UserError`, `ValidationError`) are modelled with `Except String`.
-/

/-- Values of the offer `status` selection field: `('accepted', 'refused')`.
An Odoo selection field may also be unset, so offers carry an
`Option OfferStatus`. -/
inductive OfferStatus where
  | accepted
  | refused
deriving DecidableEq, Repr

/-- Values of the property `state` selection field:
`('new', 'offer received', 'offer accepted', 'sold', 'canceled')`. -/
inductive PState where
  | new
  | offer_received
  | offer_accepted
  | sold
  | canceled
deriving DecidableEq, Repr

/-- Values of the `garden_orientation` selection field. -/
inductive GardenOrientation where
  | north
  | south
  | east
  | west
deriving DecidableEq, Repr

/-- A calendar date (year, month 1–12, day 1–31), used for the
`relativedelta(months=3)` computation of `date_availability`. -/
structure CalDate where
  year : Int
  month : Nat
  day : Nat
deriving DecidableEq, Repr

/-- An `estate.property.offer` record. `create_date` is the framework-managed
creation timestamp (day ordinal); it is `none` on a not-yet-persisted record. -/
structure Offer where
  id : Nat
  price : ℚ
  status : Option OfferStatus
  partner_id : Nat
  validity : Int
  create_date : Option Int
deriving DecidableEq, Repr

/-- An `estate.property` record. The one-to-many `offer_ids` is carried
inline as the list of this property's offers; `buyer`, `property_type_id`
are optional many-to-one references (record ids). The computed fields
`total_area` and `best_price` are not stored: they are the functions
`compute_total_area` and `compute_best_offer` below. -/
structure EstateProperty where
  name : String
  description : String
  postcode : String
  date_availability : CalDate
  expected_price : ℚ
  selling_price : ℚ
  bedrooms : Int
  living_area : Int
  facades : Int
  garage : Bool
  garden : Bool
  garden_area : Int
  garden_orientation : Option GardenOrientation
  active : Bool
  state : PState
  property_type_id : Option Nat
  tag_ids : List Nat
  buyer : Option Nat
  salesperson : Nat
  offer_ids : List Offer
deriving DecidableEq, Repr

/-- `_compute_total_area`: `record.total_area = record.living_area + record.garden_area`. -/
def compute_total_area (record : EstateProperty) : Int :=
  record.living_area + record.garden_area

/-- Python's `max(xs, default=d)`: the maximum of a nonempty list, `d` when empty. -/
def pymax (xs : List ℚ) (default : ℚ) : ℚ :=
  match xs with
  | [] => default
  | x :: rest => rest.foldl max x

/-- `_compute_best_offer`: `record.best_price = max(record.offer_ids.mapped('price'), default=0)`. -/
def compute_best_offer (record : EstateProperty) : ℚ :=
  pymax (record.offer_ids.map Offer.price) 0

/-- The inner loop of `_check_selling_price` over `record.offer_ids`: raise
`ValidationError` at the first offer with `status == 'accepted'` while
`selling_price < expected_price * 0.9`. -/
def check_selling_price_offers (selling expected : ℚ) : List Offer → Except String Unit
  | [] => Except.ok ()
  | offer :: rest =>
    if offer.status = some OfferStatus.accepted ∧ selling < expected * (9 / 10) then
      Except.error "The selling price cannot be lower than 90 percent of the expected price"
    else
      check_selling_price_offers selling expected rest

/-- `_check_selling_price` on a single record (the method also loops over a
record set; the per-record check is what the claims are about). It fires both
as an `onchange` of and as a `constrains` on `expected_price`/`selling_price`. -/
def check_selling_price (record : EstateProperty) : Except String Unit :=
  check_selling_price_offers record.selling_price record.expected_price record.offer_ids

/-- The body of `action_set_status_sold` for one record: `UserError` when the
state is `canceled` or already `sold`, otherwise `record.state = 'sold'`.
The Python `raise` happens before any assignment, so in the error case the
record is unchanged. -/
def action_set_status_sold_one (record : EstateProperty) : Except String EstateProperty :=
  if record.state = PState.canceled then
    Except.error "Canceled properties cannot be sold!"
  else if record.state = PState.sold then
    Except.error "The property is already sold!"
  else
    Except.ok { record with state := PState.sold }

/-- The body of `action_set_status_canceled` for one record: `UserError` when
the state is `sold` or already `canceled`, otherwise `record.state = 'canceled'`. -/
def action_set_status_canceled_one (record : EstateProperty) : Except String EstateProperty :=
  if record.state = PState.sold then
    Except.error "Sold properties cannot be canceled!"
  else if record.state = PState.canceled then
    Except.error "The property is already canceled!"
  else
    Except.ok { record with state := PState.canceled }

/-- `action_set_status_sold` as the code runs it on a working set `self`:
the `return True` statement is indented inside the `for record in self`
loop, so the method processes the first record and returns; the remaining
records are left untouched. An exception on that first record propagates. -/
def action_set_status_sold (self : List EstateProperty) : Except String (List EstateProperty) :=
  match self with
  | [] => Except.ok []
  | record :: rest => (action_set_status_sold_one record).map (· :: rest)

/-- `action_set_status_canceled` on a working set: same `return True`-inside-
the-loop shape as `action_set_status_sold`, so only the first record is
processed. -/
def action_set_status_canceled (self : List EstateProperty) : Except String (List EstateProperty) :=
  match self with
  | [] => Except.ok []
  | record :: rest => (action_set_status_canceled_one record).map (· :: rest)

/-- `action_accept_offer` on one offer `record` of property `p`
(`p = record.property_id`): `record.status = 'accepted'`;
`p.buyer = record.partner_id`; `p.selling_price = record.price`;
`p.state = 'offer accepted'`; every offer of `p` whose `id` differs from
`record.id` gets `status = 'refused'`. Offers are identified inside
`p.offer_ids` by their database `id`, mirroring the `offer.id == record.id`
test of the source. -/
def action_accept_offer (record : Offer) (p : EstateProperty) : EstateProperty :=
  { p with
    buyer := some record.partner_id
    selling_price := record.price
    state := PState.offer_accepted
    offer_ids := p.offer_ids.map fun offer =>
      if offer.id = record.id then { offer with status := some OfferStatus.accepted }
      else { offer with status := some OfferStatus.refused } }

/-- `action_refuse_offer` on one offer `record` of property `p`:
`record.status = 'refused'`; `p.buyer = None`; `p.selling_price = 0`;
every offer of `p` whose `id` differs from `record.id` gets
`status = 'accepted'`. The property `state` is not written. -/
def action_refuse_offer (record : Offer) (p : EstateProperty) : EstateProperty :=
  { p with
    buyer := none
    selling_price := 0
    offer_ids := p.offer_ids.map fun offer =>
      if offer.id = record.id then { offer with status := some OfferStatus.refused }
      else { offer with status := some OfferStatus.accepted } }

/-- `_compute_deadline`: `date_deadline = create_date + relativedelta(days=validity)`
when `create_date` is set, else `date.today() + relativedelta(days=validity)`;
`today` is the current day ordinal at computation time. -/
def compute_deadline (today : Int) (record : Offer) : Int :=
  match record.create_date with
  | some cd => cd + record.validity
  | none => today + record.validity

/-- `_inverse_deadline`: writing `date_deadline` back-computes
`validity = abs((date_deadline - create_date).days)`. The Python code calls
`record.create_date.strftime`, which fails on an unset `create_date`: that
case is `none`. -/
def inverse_deadline (record : Offer) (new_deadline : Int) : Option Offer :=
  match record.create_date with
  | some cd => some { record with validity := ((new_deadline - cd).natAbs : Int) }
  | none => none

/-- Gregorian leap-year rule. -/
def isLeapYear (y : Int) : Bool :=
  (y % 4 == 0 && y % 100 != 0) || (y % 400 == 0)

/-- Number of days of month `m` of year `y`. -/
def daysInMonth (y : Int) (m : Nat) : Nat :=
  if m = 2 then (if isLeapYear y then 29 else 28)
  else if m = 4 ∨ m = 6 ∨ m = 9 ∨ m = 11 then 30
  else 31

/-- dateutil's `relativedelta(months=k)` added to a date: month arithmetic
with year carry, the day clamped to the length of the target month. -/
def addMonths (d : CalDate) (k : Nat) : CalDate :=
  let t := d.month - 1 + k
  let y := d.year + (t / 12 : Nat)
  let m := t % 12 + 1
  { year := y, month := m, day := min d.day (daysInMonth y m) }

/-- The state captured when the module is imported: `date.today()` at class
definition time. -/
structure ModuleLoad where
  loadToday : CalDate

/-- Default of `date_availability`: the Python default is the already
evaluated expression `date.today() + relativedelta(months=3)`, computed once
when the model class is defined (module load) — not a callable evaluated at
each record creation. -/
def date_availability_default (env : ModuleLoad) : CalDate :=
  addMonths env.loadToday 3

/-- Creation of a property without an explicit `date_availability`: the
model's field defaults are filled in. `todayAtCreation` is the current date
at creation time; the stored `date_availability` default does not read it. -/
def create_property (env : ModuleLoad) (todayAtCreation : CalDate) (nm : String)
    (expected : ℚ) (sp : Nat) : EstateProperty :=
  { name := nm
    description := ""
    postcode := ""
    date_availability := date_availability_default env
    expected_price := expected
    selling_price := 0
    bedrooms := 2
    living_area := 0
    facades := 0
    garage := false
    garden := false
    garden_area := 0
    garden_orientation := none
    active := true
    state := PState.new
    property_type_id := none
    tag_ids := []
    buyer := none
    salesperson := sp
    offer_ids := [] }

/-- Proleptic-Gregorian ordinal of 2024-01-01 (Python `date(2024, 1, 1).toordinal()`):
2023 × 365 + 490 leap days + 1. In this encoding 2024-01-08 is `day_2024_01_01 + 7`
and 2024-01-15 is `day_2024_01_01 + 14`. -/
def day_2024_01_01 : Int := 738886

/-- Fixture offer with id 1, price 500, partner 11. -/
def offerA : Offer :=
  { id := 1, price := 500, status := none, partner_id := 11, validity := 7
    create_date := some day_2024_01_01 }

/-- Fixture offer with id 2, price 450, partner 12. -/
def offerB : Offer :=
  { id := 2, price := 450, status := none, partner_id := 12, validity := 5
    create_date := some day_2024_01_01 }

/-- Fixture property in state `new` holding offers `offerA` and `offerB`. -/
def prop0 : EstateProperty :=
  { name := "Villa"
    description := "Big villa"
    postcode := "1000"
    date_availability := ⟨2024, 4, 1⟩
    expected_price := 300
    selling_price := 0
    bedrooms := 2
    living_area := 100
    facades := 2
    garage := false
    garden := true
    garden_area := 10
    garden_orientation := some GardenOrientation.north
    active := true
    state := PState.new
    property_type_id := some 3
    tag_ids := [5, 6]
    buyer := none
    salesperson := 1
    offer_ids := [offerA, offerB] }

/-- Fixture: `prop0` already sold. -/
def propSold : EstateProperty :=
  { prop0 with state := PState.sold, selling_price := 500, buyer := some 11 }

/-- Fixture: a second property in state `new`, no offers. -/
def propNew2 : EstateProperty :=
  { prop0 with name := "Flat", offer_ids := [] }

/-- Fixture: `offerA` with status accepted. -/
def acceptedOfferA : Offer :=
  { offerA with status := some OfferStatus.accepted }

/-- Fixture for the validation example: expected price 300, selling price 260,
one accepted offer. -/
def prop260 : EstateProperty :=
  { prop0 with
    selling_price := 260
    offer_ids := [acceptedOfferA]
    state := PState.offer_accepted }

/-- Fixture for the validation example: selling price 270 instead. -/
def prop270 : EstateProperty :=
  { prop260 with selling_price := 270 }

/-- Fixture offer for the deadline example: created 2024-01-01, validity 7. -/
def offerC6 : Offer :=
  { id := 9, price := 100, status := none, partner_id := 7, validity := 7
    create_date := some day_2024_01_01 }

lemma foldl_max_choice (xs : List ℚ) : ∀ a : ℚ, xs.foldl max a = a ∨ xs.foldl max a ∈ xs := by
  induction xs with
  | nil => intro a; exact Or.inl rfl
  | cons x rest ih =>
    intro a
    have hfold : (x :: rest).foldl max a = rest.foldl max (max a x) := rfl
    rcases ih (max a x) with h | h
    · rcases max_choice a x with h2 | h2
      · exact Or.inl (by rw [hfold, h, h2])
      · exact Or.inr (by rw [hfold, h, h2]; exact List.mem_cons_self x rest)
    · exact Or.inr (by rw [hfold]; exact List.mem_cons_of_mem x h)

lemma le_foldl_max_self (xs : List ℚ) : ∀ a : ℚ, a ≤ xs.foldl max a := by
  induction xs with
  | nil => intro a; exact le_refl a
  | cons x rest ih =>
    intro a
    exact le_trans (le_max_left a x) (ih (max a x))

lemma le_foldl_max_of_mem (xs : List ℚ) : ∀ a b : ℚ, b ∈ xs → b ≤ xs.foldl max a := by
  induction xs with
  | nil => intro a b hb; cases hb
  | cons x rest ih =>
    intro a b hb
    rcases List.mem_cons.mp hb with rfl | hb
    · exact le_trans (le_max_right a b) (le_foldl_max_self rest (max a b))
    · exact ih (max a x) b hb

lemma map_map_eq_of_comp {α β : Type} (f : α → α) (g : α → β)
    (h : ∀ a, g (f a) = g a) (l : List α) : (l.map f).map g = l.map g := by
  induction l with
  | nil => rfl
  | cons x rest ih => simp [h, ih]

lemma check_selling_price_offers_error_iff (selling expected : ℚ) (offers : List Offer) :
    (∃ msg, check_selling_price_offers selling expected offers = Except.error msg) ↔
      ∃ o ∈ offers, o.status = some OfferStatus.accepted ∧
        selling < expected * (9 / 10) := by
  induction offers with
  | nil => simp [check_selling_price_offers]
  | cons o rest ih =>
    by_cases h : o.status = some OfferStatus.accepted ∧ selling < expected * (9 / 10)
    · simp [check_selling_price_offers, h]
    · simp only [check_selling_price_offers, if_neg h, ih, List.mem_cons]
      constructor
      · rintro ⟨q, hq, hacc⟩
        exact ⟨q, Or.inr hq, hacc⟩
      · rintro ⟨q, hq | hq, hacc⟩
        · exact absurd (hq ▸ hacc) h
        · exact ⟨q, hq, hacc⟩

lemma except_unit_ok_of_not_error (r : Except String Unit)
    (h : ¬ ∃ msg, r = Except.error msg) : r = Except.ok () := by
  cases r with
  | ok v => cases v; rfl
  | error msg => exact absurd ⟨msg, rfl⟩ h

/-- C1: `action_accept_offer` on offer `o` of property `p` sets the status of
the offer with `o`'s id to accepted, `p.buyer` to `o`'s partner,
`p.selling_price` to `o.price`, `p.state` to offer accepted, and the status
of every offer of `p` whose id differs from `o.id` to refused (offer ids are
preserved). -/
theorem c1_accept_offer_effects (p : EstateProperty) (o : Offer) :
    (action_accept_offer o p).state = PState.offer_accepted ∧
    (action_accept_offer o p).buyer = some o.partner_id ∧
    (action_accept_offer o p).selling_price = o.price ∧
    (∀ off ∈ (action_accept_offer o p).offer_ids,
      (off.id = o.id → off.status = some OfferStatus.accepted) ∧
      (off.id ≠ o.id → off.status = some OfferStatus.refused)) ∧
    (action_accept_offer o p).offer_ids.map Offer.id = p.offer_ids.map Offer.id := by
  refine ⟨rfl, rfl, rfl, ?_, ?_⟩
  · intro off hoff
    simp only [action_accept_offer, List.mem_map] at hoff
    obtain ⟨q, _, rfl⟩ := hoff
    by_cases h : q.id = o.id <;> simp [h]
  · exact map_map_eq_of_comp _ _ (fun a => by by_cases h : a.id = o.id <;> simp [h]) _

/-- C1 witness: accepting `offerA` (id 1, price 500, partner 11) on `prop0`
sets state, buyer, selling price, accepts offer 1 and refuses offer 2. -/
theorem c1_witness :
    (action_accept_offer offerA prop0).state = PState.offer_accepted ∧
    (action_accept_offer offerA prop0).buyer = some 11 ∧
    (action_accept_offer offerA prop0).selling_price = 500 ∧
    (action_accept_offer offerA prop0).offer_ids.map Offer.status =
      [some OfferStatus.accepted, some OfferStatus.refused] :=
  ⟨(c1_accept_offer_effects prop0 offerA).1, by decide, by decide, by decide⟩

/-- C2: `action_refuse_offer` on offer `o` of property `p` sets the status of
the offer with `o`'s id to refused, clears `p.buyer`, resets
`p.selling_price` to 0, sets the status of every offer of `p` whose id
differs from `o.id` to accepted, and leaves `p.state` unchanged. -/
theorem c2_refuse_offer_effects (p : EstateProperty) (o : Offer) :
    (action_refuse_offer o p).state = p.state ∧
    (action_refuse_offer o p).buyer = none ∧
    (action_refuse_offer o p).selling_price = 0 ∧
    (∀ off ∈ (action_refuse_offer o p).offer_ids,
      (off.id = o.id → off.status = some OfferStatus.refused) ∧
      (off.id ≠ o.id → off.status = some OfferStatus.accepted)) ∧
    (action_refuse_offer o p).offer_ids.map Offer.id = p.offer_ids.map Offer.id := by
  refine ⟨rfl, rfl, rfl, ?_, ?_⟩
  · intro off hoff
    simp only [action_refuse_offer, List.mem_map] at hoff
    obtain ⟨q, _, rfl⟩ := hoff
    by_cases h : q.id = o.id <;> simp [h]
  · exact map_map_eq_of_comp _ _ (fun a => by by_cases h : a.id = o.id <;> simp [h]) _

/-- C2 witness: refusing `offerA` on `prop0` clears the buyer, zeroes the
selling price, keeps the state, refuses offer 1 and accepts offer 2. -/
theorem c2_witness :
    (action_refuse_offer offerA prop0).state = PState.new ∧
    (action_refuse_offer offerA prop0).buyer = none ∧
    (action_refuse_offer offerA prop0).selling_price = 0 ∧
    (action_refuse_offer offerA prop0).offer_ids.map Offer.status =
      [some OfferStatus.refused, some OfferStatus.accepted] :=
  ⟨(c2_refuse_offer_effects prop0 offerA).1, by decide, by decide, by decide⟩

/-- C5: for a single property, `action_set_status_sold` raises exactly when
the state is canceled or sold and otherwise only sets the state to sold;
`action_set_status_canceled` raises exactly when the state is sold or
canceled and otherwise only sets the state to canceled. In the error case the
record is unchanged: the Python `raise` precedes any assignment, and the
embedding returns no new record on `Except.error`. -/
theorem c5_status_actions (p : EstateProperty) :
    ((∃ msg, action_set_status_sold_one p = Except.error msg) ↔
      (p.state = PState.canceled ∨ p.state = PState.sold)) ∧
    (p.state ≠ PState.canceled → p.state ≠ PState.sold →
      action_set_status_sold_one p = Except.ok { p with state := PState.sold }) ∧
    ((∃ msg, action_set_status_canceled_one p = Except.error msg) ↔
      (p.state = PState.sold ∨ p.state = PState.canceled)) ∧
    (p.state ≠ PState.sold → p.state ≠ PState.canceled →
      action_set_status_canceled_one p = Except.ok { p with state := PState.canceled }) := by
  unfold action_set_status_sold_one action_set_status_canceled_one
  cases hp : p.state <;> simp [hp]

/-- C5 witness: on `prop0` (state new) both actions succeed and only change
the state. -/
theorem c5_witness :
    action_set_status_sold_one prop0 = Except.ok { prop0 with state := PState.sold } ∧
    action_set_status_canceled_one prop0 = Except.ok { prop0 with state := PState.canceled } :=
  ⟨(c5_status_actions prop0).2.1 (by decide) (by decide),
   (c5_status_actions prop0).2.2.2 (by decide) (by decide)⟩

/-- C3 counterexample: `propSold` is sold, yet `action_accept_offer` on one of
its offers moves its state away from sold (to offer accepted), so sold is not
terminal under all four operations as the claim states. -/
theorem c3_counterexample :
    propSold.state = PState.sold ∧
    (action_accept_offer offerB propSold).state ≠ PState.sold := by
  exact ⟨rfl, by decide⟩

/-- C3 amended: a sold or canceled property cannot change state through
`action_set_status_sold`, `action_set_status_canceled` (both raise
`UserError`) or `action_refuse_offer` (which never writes the state), but
`action_accept_offer` sets the state to offer accepted regardless of the
current state, so sold and canceled are not terminal under it. -/
theorem c3_terminal_amended (p : EstateProperty) (o : Offer)
    (h : p.state = PState.sold ∨ p.state = PState.canceled) :
    (∃ msg, action_set_status_sold_one p = Except.error msg) ∧
    (∃ msg, action_set_status_canceled_one p = Except.error msg) ∧
    (action_refuse_offer o p).state = p.state ∧
    (action_accept_offer o p).state = PState.offer_accepted := by
  rcases h with h | h <;>
    simp [action_set_status_sold_one, action_set_status_canceled_one,
      action_refuse_offer, action_accept_offer, h]

/-- C3 witness: the amended statement at the sold fixture `propSold`. -/
theorem c3_witness :
    (∃ msg, action_set_status_sold_one propSold = Except.error msg) ∧
    (∃ msg, action_set_status_canceled_one propSold = Except.error msg) ∧
    (action_refuse_offer offerB propSold).state = propSold.state ∧
    (action_accept_offer offerB propSold).state = PState.offer_accepted :=
  c3_terminal_amended propSold offerB (Or.inl rfl)

/-- C10: `action_accept_offer` changes nothing beyond the offers' statuses
and the property's buyer, selling price and state: every other property
field and every other field of every offer (id, price, partner, validity,
creation date) is unchanged. -/
theorem c10_accept_offer_frame (p : EstateProperty) (o : Offer) :
    (action_accept_offer o p).name = p.name ∧
    (action_accept_offer o p).description = p.description ∧
    (action_accept_offer o p).postcode = p.postcode ∧
    (action_accept_offer o p).date_availability = p.date_availability ∧
    (action_accept_offer o p).expected_price = p.expected_price ∧
    (action_accept_offer o p).bedrooms = p.bedrooms ∧
    (action_accept_offer o p).living_area = p.living_area ∧
    (action_accept_offer o p).facades = p.facades ∧
    (action_accept_offer o p).garage = p.garage ∧
    (action_accept_offer o p).garden = p.garden ∧
    (action_accept_offer o p).garden_area = p.garden_area ∧
    (action_accept_offer o p).garden_orientation = p.garden_orientation ∧
    (action_accept_offer o p).active = p.active ∧
    (action_accept_offer o p).property_type_id = p.property_type_id ∧
    (action_accept_offer o p).tag_ids = p.tag_ids ∧
    (action_accept_offer o p).salesperson = p.salesperson ∧
    (action_accept_offer o p).offer_ids.map Offer.id = p.offer_ids.map Offer.id ∧
    (action_accept_offer o p).offer_ids.map Offer.price = p.offer_ids.map Offer.price ∧
    (action_accept_offer o p).offer_ids.map Offer.partner_id = p.offer_ids.map Offer.partner_id ∧
    (action_accept_offer o p).offer_ids.map Offer.validity = p.offer_ids.map Offer.validity ∧
    (action_accept_offer o p).offer_ids.map Offer.create_date = p.offer_ids.map Offer.create_date := by
  refine ⟨rfl, rfl, rfl, rfl, rfl, rfl, rfl, rfl, rfl, rfl, rfl, rfl, rfl, rfl, rfl, rfl,
    ?_, ?_, ?_, ?_, ?_⟩ <;>
    exact map_map_eq_of_comp _ _ (fun a => by by_cases h : a.id = o.id <;> simp [h]) _

/-- C4: the expected/selling price check raises `ValidationError` exactly
when some offer of the property is accepted and the selling price is below
nine tenths of the expected price. -/
theorem c4_selling_price_validation (p : EstateProperty) :
    (∃ msg, check_selling_price p = Except.error msg) ↔
      ∃ o ∈ p.offer_ids, o.status = some OfferStatus.accepted ∧
        p.selling_price < p.expected_price * (9 / 10) :=
  check_selling_price_offers_error_iff p.selling_price p.expected_price p.offer_ids

/-- C4 witness: with expected price 300 and an accepted offer, selling
price 260 fails the check and selling price 270 passes it. -/
theorem c4_witness :
    (∃ msg, check_selling_price prop260 = Except.error msg) ∧
    check_selling_price prop270 = Except.ok () := by
  constructor
  · refine (c4_selling_price_validation prop260).2 ⟨acceptedOfferA, ?_, rfl, ?_⟩
    · simp [prop260]
    · norm_num [prop260, prop0]
  · apply except_unit_ok_of_not_error
    intro hcontra
    obtain ⟨o, ho, hacc, hlt⟩ := (c4_selling_price_validation prop270).1 hcontra
    norm_num [prop270, prop260, prop0] at hlt

/-- C6: the offer deadline is the creation date plus `validity` days when the
creation date is set and today plus `validity` days otherwise, and writing
the deadline recomputes `validity` as the absolute day difference between
the new deadline and the creation date. -/
theorem c6_deadline (o : Offer) (today : Int) :
    (∀ cd, o.create_date = some cd → compute_deadline today o = cd + o.validity) ∧
    (o.create_date = none → compute_deadline today o = today + o.validity) ∧
    (∀ cd nd, o.create_date = some cd →
      inverse_deadline o nd = some { o with validity := ((nd - cd).natAbs : Int) }) := by
  refine ⟨?_, ?_, ?_⟩
  · intro cd h; simp [compute_deadline, h]
  · intro h; simp [compute_deadline, h]
  · intro cd nd h; simp [inverse_deadline, h]

/-- C6 witness: `offerC6` was created on 2024-01-01 (ordinal 738886) with
validity 7, so its deadline is 2024-01-08 (ordinal 738893); setting the
deadline to 2024-01-15 (ordinal 738900) back-computes validity 14. -/
theorem c6_witness :
    compute_deadline day_2024_01_01 offerC6 = 738893 ∧
    inverse_deadline offerC6 738900 = some { offerC6 with validity := 14 } := by
  have h := c6_deadline offerC6 day_2024_01_01
  refine ⟨?_, ?_⟩
  · rw [h.1 day_2024_01_01 rfl]; decide
  · rw [h.2.2 day_2024_01_01 738900 rfl]; decide

/-- C7: the `return True` sits inside the `for record in self` loop of every
action, so on a working set of two new properties only the first one changes
state; the second is returned untouched, still new, contradicting the claim
that the per-record effect applies to every record of the working set. -/
theorem c7_first_record_only :
    action_set_status_sold [prop0, propNew2] =
      Except.ok [{ prop0 with state := PState.sold }, propNew2] ∧
    propNew2.state = PState.new ∧
    action_set_status_canceled [prop0, propNew2] =
      Except.ok [{ prop0 with state := PState.canceled }, propNew2] :=
  ⟨rfl, rfl, rfl⟩

/-- C8: `best_price` is 0 for a property without offers, and for a property
with at least one offer it is the maximum of the offers' prices (it is the
price of some offer and bounds every offer's price). -/
theorem c8_best_price (p : EstateProperty) :
    (p.offer_ids = [] → compute_best_offer p = 0) ∧
    (p.offer_ids ≠ [] →
      (∃ o ∈ p.offer_ids, compute_best_offer p = o.price) ∧
      ∀ o ∈ p.offer_ids, o.price ≤ compute_best_offer p) := by
  constructor
  · intro h
    simp [compute_best_offer, h, pymax]
  · intro hne
    cases hp : p.offer_ids with
    | nil => exact absurd hp hne
    | cons o os =>
      have hbest : compute_best_offer p = (os.map Offer.price).foldl max o.price := by
        simp [compute_best_offer, hp, pymax]
      constructor
      · rcases foldl_max_choice (os.map Offer.price) o.price with h | h
        · exact ⟨o, by simp [hp], by rw [hbest, h]⟩
        · obtain ⟨q, hq, hqe⟩ := List.mem_map.mp h
          exact ⟨q, by simp [hp, hq], by rw [hbest, ← hqe]⟩
      · intro off hoff
        rcases List.mem_cons.mp hoff with rfl | hoff
        · rw [hbest]; exact le_foldl_max_self (os.map Offer.price) off.price
        · rw [hbest]
          exact le_foldl_max_of_mem (os.map Offer.price) o.price off.price
            (List.mem_map.mpr ⟨off, hoff, rfl⟩)

/-- C8 witness: on `prop0` (offers priced 500 and 450) the best price is the
price of one of its offers and bounds both, and it evaluates to 500. -/
theorem c8_witness :
    (∃ o ∈ prop0.offer_ids, compute_best_offer prop0 = o.price) ∧
    (∀ o ∈ prop0.offer_ids, o.price ≤ compute_best_offer prop0) ∧
    compute_best_offer prop0 = 500 :=
  ⟨((c8_best_price prop0).2 (by decide)).1, ((c8_best_price prop0).2 (by decide)).2, by decide⟩

/-- C9 counterexample: with the module loaded on 2024-01-01, a property
created on 2024-02-01 without an explicit availability date gets
2024-04-01 (load date + 3 months), not 2024-05-01 (creation date +
3 months) as the claim states. -/
theorem c9_counterexample :
    (create_property { loadToday := ⟨2024, 1, 1⟩ } ⟨2024, 2, 1⟩ "Villa" 300 1).date_availability ≠
      addMonths ⟨2024, 2, 1⟩ 3 := by
  decide

/-- C9 amended: the `date_availability` default is the module-load date plus
3 months — the default expression is evaluated once when the model class is
defined — so it is independent of the creation date and equals the creation
date plus 3 months only when the module was loaded that same day. -/
theorem c9_availability_default (env : ModuleLoad) (todayAtCreation : CalDate)
    (nm : String) (expected : ℚ) (sp : Nat) :
    (create_property env todayAtCreation nm expected sp).date_availability =
      addMonths env.loadToday 3 :=
  rfl
